import Mathlib

/-!
Shallow embedding of the user-management service in
`app/` (models, repository, service, API layer), for verifying the
specification's claims about validation, persistence and error mapping.

Conventions of the embedding:
* The SQLite in-memory table `users` becomes a `DB` value: a list of rows
  plus the autoincrement counter (SQLite assigns ids 1, 2, 3, ...).
* Python exceptions become an explicit error channel `Except Exc _`;
  stateful methods additionally return the resulting `DB`, so that a
  raising call site is modelled as `(.error e, db)` with the database
  it leaves behind.
* Machine integers: Python ints are unbounded, so ages are `Int` and
  ids are `Nat`.
* `str.strip()` becomes `strip`, dropping whitespace characters from
  both ends of the character list (the source's names are all ASCII, so
  the ASCII whitespace set suffices); Python's truthiness test
  `if message:` on a string becomes an emptiness test.
* The pydantic `EmailStr` shape check of the HTTP layer is outside the
  model; every claim quantifies over emails that passed it.
-/

/-- An apostrophe character, used inside Spanish error messages of the
source such as `Usuario con ID <apostrophe>1<apostrophe> no encontrado`. -/
def apos : String := String.singleton (Char.ofNat 39)

/-- Python `str.strip()`: remove whitespace from both ends of the
string. -/
def strip (s : String) : String :=
  String.mk (((s.data.dropWhile Char.isWhitespace).reverse.dropWhile
    Char.isWhitespace).reverse)

/-- `app/models/exception.py`: kinds of application exception.
`appBase` is a direct `AppBaseException`, the other four are its
subclasses. -/
inductive ExcKind where
  | userNotFound
  | duplicateEmail
  | invalidAge
  | invalidUserName
  | appBase
deriving DecidableEq, Repr

/-- A constructed application exception: its class and the message the
constructor chain stored in `self.message`. -/
structure Exc where
  kind : ExcKind
  message : String
deriving DecidableEq, Repr

/-- The fixed text `AppBaseException.__init__` puts in front of every
message. -/
def baseMessage : String := "Alphas Error: "

/-- `AppBaseException.__init__(message)`: prepends `baseMessage`; a missing
or empty (falsy) message is replaced by the default text. -/
def appBaseMessage : Option String → String
  | some m => if m = "" then baseMessage ++ "Ocurrió un error en la aplicación"
              else baseMessage ++ m
  | none => baseMessage ++ "Ocurrió un error en la aplicación"

/-- `UserNotFoundException(message)`: the subclass prepends `baseMessage`
once and passes the result to `AppBaseException.__init__`. -/
def mkUserNotFound (m : String) : Exc :=
  ⟨.userNotFound, appBaseMessage (some (baseMessage ++ m))⟩

/-- `DuplicateEmailException(message)`. -/
def mkDuplicateEmail (m : String) : Exc :=
  ⟨.duplicateEmail, appBaseMessage (some (baseMessage ++ m))⟩

/-- `InvalidAgeException(message)`. -/
def mkInvalidAge (m : String) : Exc :=
  ⟨.invalidAge, appBaseMessage (some (baseMessage ++ m))⟩

/-- `InvalidUserNameException(message)`. -/
def mkInvalidUserName (m : String) : Exc :=
  ⟨.invalidUserName, appBaseMessage (some (baseMessage ++ m))⟩

/-- `AppBaseException(message)` constructed directly. -/
def mkAppBase (m : Option String) : Exc := ⟨.appBase, appBaseMessage m⟩

/-- `app/models/domain.py`: `UserStatus` enumeration. -/
inductive UserStatus where
  | active
  | inactive
deriving DecidableEq, Repr

/-- `UserStatus.value`: the string stored in the `status` column. -/
def UserStatus.value : UserStatus → String
  | .active => "active"
  | .inactive => "inactive"

/-- `UserStatus(s)` in Python: parse a stored string back into the
enumeration; `none` models the `ValueError` on an unknown value. -/
def UserStatus.ofValue : String → Option UserStatus
  | "active" => some .active
  | "inactive" => some .inactive
  | _ => none

/-- `app/models/domain.py`: the `User` pydantic model. `id` is `None`
until storage assigns it. -/
structure User where
  id : Option Nat
  email : String
  name : String
  status : UserStatus
  age : Int
deriving DecidableEq, Repr

/-- One row of the SQLite table
`users(id PK autoincrement, email, name, status, age)`; `status` is
stored as the enum's string value. -/
structure Row where
  id : Nat
  email : String
  name : String
  status : String
  age : Int
deriving DecidableEq, Repr

/-- The in-memory store: current rows in insertion order plus the next
autoincrement id (SQLite starts at 1). -/
structure DB where
  rows : List Row
  nextId : Nat
deriving DecidableEq, Repr

/-- The freshly created table of `SQLAlchemyUserRepository.__init__`. -/
def DB.empty : DB := ⟨[], 1⟩

/-- Settings of `app/core/config.py`; only the minimum-age knob matters
to the claims. Environment override = choosing another value for the
field; `settingsDefault` is the class default. -/
structure Settings where
  MIN_USER_AGE : Int
deriving DecidableEq, Repr

/-- The defaults of `Settings` (`MIN_USER_AGE: int = 18`). -/
def settingsDefault : Settings := ⟨18⟩

namespace SQLAlchemyUserRepository

/-- `email_exists(email)`: `SELECT COUNT(*) WHERE email = :email` and
compare with 0. Pure read; its `except` clause only fires on engine
failures, which the in-memory model does not produce. -/
def email_exists (db : DB) (email : String) : Bool :=
  db.rows.any (fun r => r.email == email)

/-- `save(user)`: validates age (hard-coded `< 18`), then the name
(`not user.name or not user.name.strip()`), then email uniqueness, then
inserts and returns the user with the assigned autoincrement id.
Returns the result together with the database left behind; each raise
happens before the insert, so those branches return `db` unchanged. -/
def save (db : DB) (user : User) : Except Exc User × DB :=
  if user.age < 18 then
    (.error (mkInvalidAge "La edad debe ser mayor o igual a 18 años"), db)
  else if user.name = "" ∨ strip user.name = "" then
    (.error (mkInvalidUserName "El nombre no puede estar vacío o en blanco"), db)
  else if email_exists db user.email then
    (.error (mkDuplicateEmail "El email ya existe en la base de datos"), db)
  else
    (.ok { user with id := some db.nextId },
     { rows := db.rows ++ [⟨db.nextId, user.email, user.name, user.status.value, user.age⟩],
       nextId := db.nextId + 1 })

/-- `find_by_id(user_id)`: `SELECT WHERE id = :user_id`, `fetchone`;
a found row is converted back to a `User` (an unparsable stored status
raises `ValueError`, which the generic `except` wraps), a miss raises
`UserNotFoundException`. -/
def find_by_id (db : DB) (user_id : Nat) : Except Exc User :=
  match db.rows.find? (fun r => r.id == user_id) with
  | some r =>
    match UserStatus.ofValue r.status with
    | some st => .ok ⟨some r.id, r.email, r.name, st, r.age⟩
    | none =>
      .error (mkUserNotFound
        ("Error al buscar usuario: " ++ apos ++ r.status ++ apos ++ " is not a valid UserStatus"))
  | none =>
    .error (mkUserNotFound
      ("Usuario con ID " ++ apos ++ toString user_id ++ apos ++ " no encontrado"))

/-- Result of `get_user_by_email`: either `user.dict()` (a dict whose
keys are the five user fields, never `error`) or the sentinel dict
`\x7b'error': msg\x7d`, which the method returns instead of raising. -/
inductive EmailLookup where
  | ok (u : User)
  | err (msg : String)
deriving DecidableEq, Repr

/-- `get_user_by_email(email)`: `SELECT WHERE email = :email`; a found
row is returned as `user.dict()`; a miss raises `UserNotFoundException`,
which the method's own `except` clause converts into the sentinel error
dict carrying `str(e)`. -/
def get_user_by_email (db : DB) (email : String) : EmailLookup :=
  match db.rows.find? (fun r => r.email == email) with
  | some r =>
    match UserStatus.ofValue r.status with
    | some st => .ok ⟨some r.id, r.email, r.name, st, r.age⟩
    | none =>
      .err ("Error inesperado: " ++ apos ++ r.status ++ apos ++ " is not a valid UserStatus")
  | none =>
    .err (mkUserNotFound ("Usuario con email " ++ apos ++ email ++ apos ++ " no existe")).message

end SQLAlchemyUserRepository

namespace UserService

open SQLAlchemyUserRepository

/-- Does this exception kind match the `except (InvalidAgeException,
InvalidUserNameException, DuplicateEmailException)` clause of
`UserService.create_user`? -/
def isValidationKind : ExcKind → Bool
  | .invalidAge => true
  | .invalidUserName => true
  | .duplicateEmail => true
  | _ => false

/-- `UserService.create_user(email, name, age, status)`: builds the
`User` (id `None`) and delegates to `save`; the three validation
exceptions are re-raised unchanged, any other exception is wrapped into
`AppBaseException("Error al crear usuario: " + str(e))`. -/
def create_user (db : DB) (email name : String) (age : Int)
    (status : UserStatus := .active) : Except Exc User × DB :=
  match save db ⟨none, email, name, status, age⟩ with
  | (.ok u, db2) => (.ok u, db2)
  | (.error e, db2) =>
    if isValidationKind e.kind then (.error e, db2)
    else (.error (mkAppBase (some ("Error al crear usuario: " ++ e.message))), db2)

/-- `UserService.get_user_by_id(user_id)`: delegates to `find_by_id`;
`UserNotFoundException` is re-raised, anything else is wrapped into
`AppBaseException("Error al buscar usuario: " + str(e))`. -/
def get_user_by_id (db : DB) (user_id : Nat) : Except Exc User :=
  match find_by_id db user_id with
  | .ok u => .ok u
  | .error e =>
    if e.kind = .userNotFound then .error e
    else .error (mkAppBase (some ("Error al buscar usuario: " ++ e.message)))

/-- `UserService.get_user_by_email(email)`: delegates to the repository;
when the returned dict carries the `error` key the service raises
`UserNotFoundException(user_dict["error"])` (re-raised by its own
`except UserNotFoundException` clause); otherwise the dict is returned
unchanged. -/
def get_user_by_email (db : DB) (email : String) : Except Exc User :=
  match SQLAlchemyUserRepository.get_user_by_email db email with
  | .err m => .error (mkUserNotFound m)
  | .ok d => .ok d

/-- `UserService.email_exists(email)`: pass-through boolean check. -/
def email_exists (db : DB) (email : String) : Bool :=
  SQLAlchemyUserRepository.email_exists db email

/-- `UserService.update_user_status(user_id, new_status)`: fetches the
user, sets the in-memory `status` field and returns it; nothing is
written back, so the database is returned unchanged on every path.
`UserNotFoundException` is re-raised, anything else wrapped into
`AppBaseException("Error al actualizar usuario: " + str(e))`. -/
def update_user_status (db : DB) (user_id : Nat) (new_status : UserStatus) :
    Except Exc User × DB :=
  match get_user_by_id db user_id with
  | .ok u => (.ok { u with status := new_status }, db)
  | .error e =>
    if e.kind = .userNotFound then (.error e, db)
    else (.error (mkAppBase (some ("Error al actualizar usuario: " ++ e.message))), db)

end UserService

namespace Routes

/-- `routes.py` `UserResponse`: the success body of the user endpoints,
with `status` serialized as its string value. -/
structure UserResponse where
  id : Nat
  email : String
  name : String
  age : Int
  status : String
deriving DecidableEq, Repr

/-- `routes.py` `EmailCheckResponse`: body of the check-email endpoint. -/
structure EmailCheckResponse where
  email : String
  «exists» : Bool
  available : Bool
deriving DecidableEq, Repr

/-- `POST /users` handler `create_user`: delegates to the service, turns
the returned user into a `UserResponse`, and re-raises every application
exception unchanged. A successful `save` always assigns an id, so the
`getD 0` default on `user.id` is never taken. -/
def create_user (db : DB) (email name : String) (age : Int)
    (status : UserStatus := .active) : Except Exc UserResponse × DB :=
  match UserService.create_user db email name age status with
  | (.ok u, db2) => (.ok ⟨u.id.getD 0, u.email, u.name, u.age, u.status.value⟩, db2)
  | (.error e, db2) => (.error e, db2)

/-- `GET /users/{user_id}` handler `get_user`: delegates to the
service, converts the user to a `UserResponse` and re-raises every
application exception unchanged. A found user always has an id, so the
`getD 0` default is never taken. -/
def get_user (db : DB) (user_id : Nat) : Except Exc UserResponse :=
  match UserService.get_user_by_id db user_id with
  | .ok u => .ok ⟨u.id.getD 0, u.email, u.name, u.age, u.status.value⟩
  | .error e => .error e

/-- `GET /users/check-email/{email}` handler `check_email_exists`:
returns existence and availability booleans; an existence check never
fails for a missing user. -/
def check_email_exists (db : DB) (email : String) : EmailCheckResponse :=
  ⟨email, UserService.email_exists db email, !UserService.email_exists db email⟩

end Routes

/-- The JSON error response a FastAPI exception handler in `main.py`
produces: HTTP status code plus the uniform body
`\x7b"error": category, "detail": message\x7d`. -/
structure JSONErrorResponse where
  status_code : Nat
  error : String
  detail : String
deriving DecidableEq, Repr

/-- The exception handlers of `main.py`: FastAPI dispatches on the most
specific registered exception class, so each of the four subclasses hits
its own handler and only a bare `AppBaseException` reaches the generic
one. `detail` is always `exc.message`. -/
def handle_exception (e : Exc) : JSONErrorResponse :=
  match e.kind with
  | .userNotFound => ⟨404, "Usuario no encontrado", e.message⟩
  | .duplicateEmail => ⟨409, "Email duplicado", e.message⟩
  | .invalidAge => ⟨400, "Edad inválida", e.message⟩
  | .invalidUserName => ⟨400, "Nombre de usuario inválido", e.message⟩
  | .appBase => ⟨500, "Error en la aplicación", e.message⟩

/-- The kind of error a computation produced, if any. -/
def errKind {α : Type} : Except Exc α → Option ExcKind
  | .error e => some e.kind
  | .ok _ => none

/-- A user below the age threshold, for instantiating hypotheses. -/
def uYoung : User := ⟨none, "kid@example.com", "Kid", .active, 17⟩

/-- A user of valid age whose name is whitespace only. -/
def uBlank : User := ⟨none, "blank@example.com", "   ", .active, 25⟩

/-- A valid boundary user: age exactly 18. -/
def uAna : User := ⟨none, "ana@example.com", "Ana", .active, 18⟩

/-- A one-row table holding Ana with age 20, id 1 already assigned. -/
def rowAna : Row := ⟨1, "ana@example.com", "Ana", "active", 20⟩

/-- The table after one successful insert. -/
def dbOne : DB := ⟨[rowAna], 2⟩

open SQLAlchemyUserRepository

/-- `strip` of the empty string is empty, so Python's
`not name or not name.strip()` is equivalent to emptiness of the
stripped name. -/
lemma name_cond_iff (n : String) : (n = "" ∨ strip n = "") ↔ strip n = "" := by
  constructor
  · rintro (h | h)
    · subst h; rfl
    · exact h
  · exact Or.inr

/-- Converting a status to its column string and back is the identity. -/
lemma UserStatus.ofValue_value (st : UserStatus) :
    UserStatus.ofValue st.value = some st := by
  cases st <;> rfl

/-- Case analysis of `save`: the three raising branches in source order,
then the insert branch with its exact effect on the table. -/
lemma save_cases (db : DB) (u : User) :
    (u.age < 18 ∧
      save db u = (.error (mkInvalidAge "La edad debe ser mayor o igual a 18 años"), db)) ∨
    (¬ u.age < 18 ∧ strip u.name = "" ∧
      save db u = (.error (mkInvalidUserName "El nombre no puede estar vacío o en blanco"), db)) ∨
    (¬ u.age < 18 ∧ strip u.name ≠ "" ∧ email_exists db u.email = true ∧
      save db u = (.error (mkDuplicateEmail "El email ya existe en la base de datos"), db)) ∨
    (¬ u.age < 18 ∧ strip u.name ≠ "" ∧ email_exists db u.email = false ∧
      save db u = (.ok { u with id := some db.nextId },
        ⟨db.rows ++ [⟨db.nextId, u.email, u.name, u.status.value, u.age⟩], db.nextId + 1⟩)) := by
  by_cases h1 : u.age < 18
  · exact Or.inl ⟨h1, by simp [save, h1]⟩
  · by_cases h2 : u.name = "" ∨ strip u.name = ""
    · refine Or.inr (Or.inl ⟨h1, (name_cond_iff u.name).mp h2, ?_⟩)
      simp [save, h1, h2]
    · by_cases h3 : email_exists db u.email = true
      · refine Or.inr (Or.inr (Or.inl ⟨h1, fun hn => h2 (Or.inr hn), h3, ?_⟩))
        simp [save, h1, h2, h3]
      · refine Or.inr (Or.inr (Or.inr ⟨h1, fun hn => h2 (Or.inr hn),
          Bool.not_eq_true _ ▸ h3, ?_⟩))
        simp [save, h1, h2, h3]

/-- C1: `save` validates in the fixed order age, name, email-uniqueness:
age below 18 fails with InvalidAge whatever the name and email; valid
age with a name empty after stripping fails with InvalidUserName
whatever the email; a DuplicateEmail failure implies age and name were
both valid. -/
theorem C1_save_validation_order (db : DB) (u : User) :
    (u.age < 18 → errKind (save db u).1 = some .invalidAge) ∧
    (18 ≤ u.age → strip u.name = "" → errKind (save db u).1 = some .invalidUserName) ∧
    (errKind (save db u).1 = some .duplicateEmail → 18 ≤ u.age ∧ strip u.name ≠ "") := by
  rcases save_cases db u with ⟨h1, hs⟩ | ⟨h1, h2, hs⟩ | ⟨h1, h2, h3, hs⟩ | ⟨h1, h2, h3, hs⟩ <;>
    rw [hs] <;>
    refine ⟨fun ha => ?_, fun ha hn => ?_, fun hd => ?_⟩
  · rfl
  · exact absurd h1 (not_lt.mpr ha)
  · simp [errKind, mkInvalidAge] at hd
  · exact absurd ha h1
  · rfl
  · simp [errKind, mkInvalidUserName] at hd
  · exact absurd ha h1
  · exact absurd hn h2
  · exact ⟨not_lt.mp h1, h2⟩
  · exact absurd ha h1
  · exact absurd hn h2
  · simp [errKind] at hd


/-- Witness for C1 at concrete inputs: age 17 yields InvalidAge, and
age 25 with an all-space name yields InvalidUserName. -/
theorem C1_save_validation_order_witness :
    errKind (save DB.empty uYoung).1 = some .invalidAge ∧
    errKind (save DB.empty uBlank).1 = some .invalidUserName :=
  ⟨(C1_save_validation_order DB.empty uYoung).1 (by decide),
   (C1_save_validation_order DB.empty uBlank).2.1 (by decide) (by decide)⟩

/-- C3 counterexample: override the configured minimum to 19; the user
`uAna` of age 18 is below that configured minimum, yet `save` does not
fail with InvalidAge (its threshold is the hard-coded 18, and the
configured `MIN_USER_AGE` is read nowhere in the repository). -/
theorem C3_counterexample :
    uAna.age < (⟨19⟩ : Settings).MIN_USER_AGE ∧
    errKind (save DB.empty uAna).1 ≠ some ExcKind.invalidAge := by
  refine ⟨by decide, ?_⟩
  rcases save_cases DB.empty uAna with ⟨h1, hs⟩ | ⟨h1, h2, hs⟩ | ⟨h1, h2, h3, hs⟩ |
    ⟨h1, h2, h3, hs⟩ <;> first
  | exact absurd h1 (by decide)
  | exact absurd h2 (by decide)
  | exact absurd h3 (by decide)
  | · rw [hs]; simp [errKind]

/-- C3 amended: the threshold `save` enforces is the constant 18, which
coincides with the default `MIN_USER_AGE` but ignores any override:
`save` fails with InvalidAge exactly when the age is below 18, and a
table whose rows all have age at least 18 keeps that property across
`save`. -/
theorem C3_age_threshold_is_constant_18 (db : DB) (u : User) :
    (errKind (save db u).1 = some ExcKind.invalidAge ↔
      u.age < settingsDefault.MIN_USER_AGE) ∧
    ((∀ r ∈ db.rows, 18 ≤ r.age) → ∀ r ∈ (save db u).2.rows, 18 ≤ r.age) := by
  have h18 : settingsDefault.MIN_USER_AGE = 18 := rfl
  rw [h18]
  rcases save_cases db u with ⟨h1, hs⟩ | ⟨h1, h2, hs⟩ | ⟨h1, h2, h3, hs⟩ | ⟨h1, h2, h3, hs⟩ <;>
    rw [hs] <;> constructor
  · simp [errKind, mkInvalidAge, h1]
  · intro hall
    exact hall
  · simp [errKind, mkInvalidUserName, h1]
  · intro hall
    exact hall
  · simp [errKind, mkDuplicateEmail, h1]
  · intro hall
    exact hall
  · simp [errKind, h1]
  · intro hall r hr
    rcases List.mem_append.mp hr with hin | hnew
    · exact hall r hin
    · rcases List.mem_singleton.mp hnew with rfl
      exact not_lt.mp h1


/-- Witness for C3's amended theorem: on the one-row table and the
17-year-old user, `save` fails with InvalidAge and the age floor of
the table is preserved on its row. -/
theorem C3_age_threshold_is_constant_18_witness :
    (errKind (save dbOne uYoung).1 = some ExcKind.invalidAge ↔
      uYoung.age < settingsDefault.MIN_USER_AGE) ∧
    18 ≤ rowAna.age :=
  ⟨(C3_age_threshold_is_constant_18 dbOne uYoung).1,
   (C3_age_threshold_is_constant_18 dbOne uYoung).2 (by decide) rowAna (by decide)⟩

/-- Errors produced by `save` are always one of the three validation
kinds, so the service's re-raise clause applies to every one of them. -/
lemma save_error_isValidationKind (db : DB) (u : User) (e : Exc)
    (h : (save db u).1 = .error e) : UserService.isValidationKind e.kind = true := by
  rcases save_cases db u with ⟨_, hs⟩ | ⟨_, _, hs⟩ | ⟨_, _, _, hs⟩ | ⟨_, _, _, hs⟩ <;>
    rw [hs] at h <;> cases h <;> rfl

/-- `create_user` of the service forwards exactly what `save` produced,
state included, whenever `save` fails. -/
lemma create_user_forwards_save_error (db : DB) (email name : String) (age : Int)
    (status : UserStatus) (e : Exc)
    (h : (save db ⟨none, email, name, status, age⟩).1 = .error e) :
    UserService.create_user db email name age status =
      (.error e, (save db ⟨none, email, name, status, age⟩).2) := by
  unfold UserService.create_user
  have hk := save_error_isValidationKind db ⟨none, email, name, status, age⟩ e h
  rcases hsv : save db ⟨none, email, name, status, age⟩ with ⟨r, db2⟩
  rw [hsv] at h
  cases r with
  | ok u => cases h
  | error e2 =>
    cases h
    simp [hk]

/-- `create_user` of the service forwards a successful `save` verbatim. -/
lemma create_user_forwards_save_ok (db : DB) (email name : String) (age : Int)
    (status : UserStatus) (u : User) (db2 : DB)
    (h : save db ⟨none, email, name, status, age⟩ = (.ok u, db2)) :
    UserService.create_user db email name age status = (.ok u, db2) := by
  unfold UserService.create_user
  rw [h]

/-- C5: for every age below the minimum, the service's create fails with
InvalidAge and leaves the table exactly as it was, so `email_exists`
answers the same for every email before and after the failed call. -/
theorem C5_underage_create_writes_nothing (db : DB) (email name : String) (age : Int)
    (status : UserStatus) (h : age < 18) :
    errKind (UserService.create_user db email name age status).1 = some ExcKind.invalidAge ∧
    (UserService.create_user db email name age status).2 = db ∧
    ∀ e2, email_exists (UserService.create_user db email name age status).2 e2 =
      email_exists db e2 := by
  have hs : save db ⟨none, email, name, status, age⟩ =
      (.error (mkInvalidAge "La edad debe ser mayor o igual a 18 años"), db) := by
    rcases save_cases db ⟨none, email, name, status, age⟩ with ⟨_, hs⟩ | ⟨h1, _, _⟩ |
      ⟨h1, _, _, _⟩ | ⟨h1, _, _, _⟩
    · exact hs
    all_goals exact absurd h h1
  have hc := create_user_forwards_save_error db email name age status _ (by rw [hs])
  rw [hs] at hc
  rw [hc]
  exact ⟨rfl, rfl, fun _ => rfl⟩

/-- Witness for C5: age 15 on the one-row table; the failed create keeps
the table, and the existing email still exists while a fresh one still
does not. -/
theorem C5_underage_create_writes_nothing_witness :
    errKind (UserService.create_user dbOne "kid@example.com" "Kid" 15 .active).1 =
      some ExcKind.invalidAge ∧
    (UserService.create_user dbOne "kid@example.com" "Kid" 15 .active).2 = dbOne ∧
    email_exists (UserService.create_user dbOne "kid@example.com" "Kid" 15 .active).2
      "ana@example.com" = email_exists dbOne "ana@example.com" :=
  have h := C5_underage_create_writes_nothing dbOne "kid@example.com" "Kid" 15 .active
    (by decide)
  ⟨h.1, h.2.1, h.2.2 "ana@example.com"⟩

/-- A successful `save` pins down both the returned user and the new
table: the user gets the autoincrement id, the table gets one appended
row. -/
lemma save_ok_elim (db : DB) (u u2 : User) (db2 : DB)
    (h : save db u = (.ok u2, db2)) :
    u2 = { u with id := some db.nextId } ∧
    db2 = ⟨db.rows ++ [⟨db.nextId, u.email, u.name, u.status.value, u.age⟩], db.nextId + 1⟩ ∧
    email_exists db u.email = false := by
  rcases save_cases db u with ⟨_, hs⟩ | ⟨_, _, hs⟩ | ⟨_, _, _, hs⟩ | ⟨_, _, hex, hs⟩ <;>
    rw [hs] at h <;> rw [Prod.ext_iff] at h <;> simp only at h
  · exact absurd h.1 (by simp)
  · exact absurd h.1 (by simp)
  · exact absurd h.1 (by simp)
  · exact ⟨(Except.ok.inj h.1).symm, h.2.symm, hex⟩

/-- A successful service `create_user` comes from a successful `save`
of the freshly built user object. -/
lemma create_ok_elim (db : DB) (email name : String) (age : Int) (status : UserStatus)
    (u : User) (db2 : DB)
    (h : UserService.create_user db email name age status = (.ok u, db2)) :
    save db ⟨none, email, name, status, age⟩ = (.ok u, db2) := by
  rcases save_cases db ⟨none, email, name, status, age⟩ with ⟨_, hs⟩ | ⟨_, _, hs⟩ |
    ⟨_, _, _, hs⟩ | ⟨_, _, _, hs⟩
  · have hc := create_user_forwards_save_error db email name age status _ (by rw [hs])
    rw [hs] at hc
    rw [hc] at h
    exact absurd (Prod.ext_iff.mp h).1 (by simp)
  · have hc := create_user_forwards_save_error db email name age status _ (by rw [hs])
    rw [hs] at hc
    rw [hc] at h
    exact absurd (Prod.ext_iff.mp h).1 (by simp)
  · have hc := create_user_forwards_save_error db email name age status _ (by rw [hs])
    rw [hs] at hc
    rw [hc] at h
    exact absurd (Prod.ext_iff.mp h).1 (by simp)
  · have hc := create_user_forwards_save_ok db email name age status _ _ hs
    rw [hc] at h
    rw [hs]
    exact h

/-- Looking up the autoincrement id right after an insert finds exactly
the inserted row, provided every pre-existing id is smaller (which the
autoincrement discipline guarantees). -/
lemma find_by_id_fresh (db : DB) (row : Row) (n2 : Nat) (st : UserStatus)
    (hwf : ∀ r ∈ db.rows, r.id < db.nextId) (hid : row.id = db.nextId)
    (hst : UserStatus.ofValue row.status = some st) :
    find_by_id ⟨db.rows ++ [row], n2⟩ db.nextId =
      .ok ⟨some row.id, row.email, row.name, st, row.age⟩ := by
  have h1 : db.rows.find? (fun r => r.id == db.nextId) = none := by
    rw [List.find?_eq_none]
    intro r hr
    simp only [beq_iff_eq]
    exact Nat.ne_of_lt (hwf r hr)
  have h2 : (db.rows ++ [row]).find? (fun r => r.id == db.nextId) = some row := by
    rw [List.find?_append, h1, Option.none_or]
    simp [List.find?, hid]
  unfold find_by_id
  simp only [h2, hst]

/-- C4 round-trip: a user created successfully through the service can
be fetched back by the id the storage assigned, and the fetched value
agrees with the returned one on every field, the now-defined id
included. The hypothesis on `db` is the autoincrement discipline: every
stored id is below the counter. -/
theorem C4_create_then_find_round_trip (db : DB) (email name : String) (age : Int)
    (status : UserStatus) (u1 : User) (db1 : DB)
    (hwf : ∀ r ∈ db.rows, r.id < db.nextId)
    (h : UserService.create_user db email name age status = (.ok u1, db1)) :
    u1.id = some db.nextId ∧ u1.email = email ∧ u1.name = name ∧ u1.age = age ∧
    u1.status = status ∧ find_by_id db1 db.nextId = .ok u1 := by
  have hsave := create_ok_elim db email name age status u1 db1 h
  obtain ⟨hu, hdb, _⟩ := save_ok_elim db _ u1 db1 hsave
  subst hu
  subst hdb
  refine ⟨rfl, rfl, rfl, rfl, rfl, ?_⟩
  exact find_by_id_fresh db ⟨db.nextId, email, name, status.value, age⟩ (db.nextId + 1)
    status hwf rfl (UserStatus.ofValue_value status)

/-- Witness for C4: create Ana on the empty table; find her back at
id 1. -/
theorem C4_create_then_find_round_trip_witness :
    (⟨some 1, "ana@example.com", "Ana", .active, 20⟩ : User).id = some DB.empty.nextId ∧
    find_by_id ⟨[⟨1, "ana@example.com", "Ana", "active", 20⟩], 2⟩ DB.empty.nextId =
      .ok ⟨some 1, "ana@example.com", "Ana", .active, 20⟩ :=
  have h := C4_create_then_find_round_trip DB.empty "ana@example.com" "Ana" 20 .active
    ⟨some 1, "ana@example.com", "Ana", .active, 20⟩
    ⟨[⟨1, "ana@example.com", "Ana", "active", 20⟩], 2⟩ (by decide) (by rfl)
  ⟨h.1, h.2.2.2.2.2⟩

/-- `email_exists` answers true on the table a successful `save` of that
email leaves behind. -/
lemma email_exists_after_insert (rows : List Row) (row : Row) (n2 : Nat)
    (h : row.email = e) : email_exists ⟨rows ++ [row], n2⟩ e = true := by
  simp [email_exists, List.any_append, h]

/-- C2: after a first successful create of `email`, a second create with
the same email and any valid name and age fails with DuplicateEmail and
leaves the table untouched, so the first user is still found intact
under its assigned id; moreover create preserves the one-user-per-email
invariant (no duplicate emails in the table). -/
theorem C2_second_create_same_email_conflicts (db : DB) (email n1 n2 : String)
    (a1 a2 : Int) (st1 st2 : UserStatus) (u1 : User) (db1 : DB)
    (hwf : ∀ r ∈ db.rows, r.id < db.nextId)
    (h1 : UserService.create_user db email n1 a1 st1 = (.ok u1, db1))
    (ha2 : 18 ≤ a2) (hn2 : strip n2 ≠ "") :
    errKind (UserService.create_user db1 email n2 a2 st2).1 = some ExcKind.duplicateEmail ∧
    (UserService.create_user db1 email n2 a2 st2).2 = db1 ∧
    u1.id = some db.nextId ∧
    find_by_id (UserService.create_user db1 email n2 a2 st2).2 db.nextId = .ok u1 ∧
    ((db.rows.map Row.email).Nodup → (db1.rows.map Row.email).Nodup) := by
  have hsave := create_ok_elim db email n1 a1 st1 u1 db1 h1
  obtain ⟨hu, hdb, hex⟩ := save_ok_elim db _ u1 db1 hsave
  have hex1 : email_exists db1 email = true := by
    subst hdb
    exact email_exists_after_insert db.rows _ _ rfl
  have hs2 : save db1 ⟨none, email, n2, st2, a2⟩ =
      (.error (mkDuplicateEmail "El email ya existe en la base de datos"), db1) := by
    rcases save_cases db1 ⟨none, email, n2, st2, a2⟩ with ⟨hc1, _⟩ | ⟨_, hc2, _⟩ |
      ⟨_, _, _, hs⟩ | ⟨_, _, hc3, _⟩
    · exact absurd (not_lt.mpr ha2) (not_not.mpr hc1)
    · exact absurd hc2 hn2
    · exact hs
    · rw [hex1] at hc3
      cases hc3
  have hc2 := create_user_forwards_save_error db1 email n2 a2 st2 _ (by rw [hs2])
  rw [hs2] at hc2
  rw [hc2]
  refine ⟨rfl, rfl, by rw [hu], ?_, ?_⟩
  · subst hu
    subst hdb
    exact find_by_id_fresh db ⟨db.nextId, email, n1, st1.value, a1⟩ (db.nextId + 1)
      st1 hwf rfl (UserStatus.ofValue_value st1)
  · intro hnd
    subst hdb
    have hnotin : email ∉ db.rows.map Row.email := by
      simp only [email_exists, List.any_eq_false, beq_iff_eq] at hex
      simp only [List.mem_map]
      rintro ⟨r, hr, hre⟩
      exact hex r hr hre
    simp only [List.map_append, List.map_cons, List.map_nil]
    rw [List.nodup_append]
    exact ⟨hnd, List.nodup_singleton _, by
      intro x hx hx2
      rcases List.mem_singleton.mp hx2 with rfl
      exact hnotin hx⟩

/-- Witness for C2: create Ann on the empty table, then create a second
user with the same email: DuplicateEmail, table untouched, Ann still
found, emails still free of duplicates. -/
theorem C2_second_create_same_email_conflicts_witness :
    errKind (UserService.create_user ⟨[⟨1, "a@b.com", "Ann", "active", 25⟩], 2⟩
      "a@b.com" "Bob" 30 .inactive).1 = some ExcKind.duplicateEmail ∧
    (UserService.create_user ⟨[⟨1, "a@b.com", "Ann", "active", 25⟩], 2⟩
      "a@b.com" "Bob" 30 .inactive).2 = ⟨[⟨1, "a@b.com", "Ann", "active", 25⟩], 2⟩ ∧
    find_by_id (UserService.create_user ⟨[⟨1, "a@b.com", "Ann", "active", 25⟩], 2⟩
      "a@b.com" "Bob" 30 .inactive).2 DB.empty.nextId =
      .ok ⟨some 1, "a@b.com", "Ann", .active, 25⟩ ∧
    ((⟨[⟨1, "a@b.com", "Ann", "active", 25⟩], 2⟩ : DB).rows.map Row.email).Nodup :=
  have h := C2_second_create_same_email_conflicts DB.empty "a@b.com" "Ann" "Bob" 25 30
    .active .inactive ⟨some 1, "a@b.com", "Ann", .active, 25⟩
    ⟨[⟨1, "a@b.com", "Ann", "active", 25⟩], 2⟩ (by decide) (by rfl) (by decide) (by decide)
  ⟨h.1, h.2.1, h.2.2.2.1, h.2.2.2.2 (by decide)⟩

/-- C6: the double error channel of the email lookup. When the
repository returns its sentinel error dict, the service raises
UserNotFound built from that embedded message; when it returns a plain
user dict, the service passes it through unchanged. -/
theorem C6_email_lookup_error_channel (db : DB) (email : String) :
    (∀ m, SQLAlchemyUserRepository.get_user_by_email db email = .err m →
      UserService.get_user_by_email db email = .error (mkUserNotFound m)) ∧
    (∀ u, SQLAlchemyUserRepository.get_user_by_email db email = .ok u →
      UserService.get_user_by_email db email = .ok u) := by
  constructor <;> intro x h <;> unfold UserService.get_user_by_email <;> rw [h]

/-- Witness for C6: the empty table gives the sentinel error for a
missing email, and the one-row table gives Ana back unchanged. -/
theorem C6_email_lookup_error_channel_witness :
    UserService.get_user_by_email DB.empty "x@y.com" =
      .error (mkUserNotFound (mkUserNotFound
        ("Usuario con email " ++ apos ++ "x@y.com" ++ apos ++ " no existe")).message) ∧
    UserService.get_user_by_email dbOne "ana@example.com" =
      .ok ⟨some 1, "ana@example.com", "Ana", .active, 20⟩ :=
  ⟨(C6_email_lookup_error_channel DB.empty "x@y.com").1 _ (by rfl),
   (C6_email_lookup_error_channel dbOne "ana@example.com").2 _ (by rfl)⟩

/-- Errors of `find_by_id` are always UserNotFound, so the service's
re-raise clause applies to each of them. -/
lemma find_by_id_error_kind (db : DB) (user_id : Nat) (e : Exc)
    (h : find_by_id db user_id = .error e) : e.kind = ExcKind.userNotFound := by
  unfold find_by_id at h
  split at h
  · split at h
    · cases h
    · cases h
      rfl
  · cases h
    rfl

/-- The service's `get_user_by_id` forwards a repository UserNotFound
verbatim. -/
lemma get_user_by_id_forwards_not_found (db : DB) (user_id : Nat) (e : Exc)
    (h : find_by_id db user_id = .error e) :
    UserService.get_user_by_id db user_id = .error e := by
  have hk := find_by_id_error_kind db user_id e h
  simp only [UserService.get_user_by_id, h]
  simp [hk]

/-- C7: repository domain errors reach the HTTP boundary unchanged
through the service and the route handlers — the validation errors of
`save` along the create path, UserNotFound along the fetch path — and
the boundary maps each kind to its fixed status code with the uniform
error-category/detail body, the detail being the exception's message. -/
theorem C7_error_propagation_and_http_mapping :
    (∀ (db : DB) (email name : String) (age : Int) (status : UserStatus) (e : Exc),
      (save db ⟨none, email, name, status, age⟩).1 = .error e →
      (Routes.create_user db email name age status).1 = .error e) ∧
    (∀ (db : DB) (user_id : Nat) (e : Exc),
      find_by_id db user_id = .error e → Routes.get_user db user_id = .error e) ∧
    (∀ m, handle_exception ⟨.invalidAge, m⟩ = ⟨400, "Edad inválida", m⟩) ∧
    (∀ m, handle_exception ⟨.invalidUserName, m⟩ = ⟨400, "Nombre de usuario inválido", m⟩) ∧
    (∀ m, handle_exception ⟨.duplicateEmail, m⟩ = ⟨409, "Email duplicado", m⟩) ∧
    (∀ m, handle_exception ⟨.userNotFound, m⟩ = ⟨404, "Usuario no encontrado", m⟩) ∧
    (∀ m, handle_exception ⟨.appBase, m⟩ = ⟨500, "Error en la aplicación", m⟩) := by
  refine ⟨?_, ?_, fun _ => rfl, fun _ => rfl, fun _ => rfl, fun _ => rfl, fun _ => rfl⟩
  · intro db email name age status e h
    have hc := create_user_forwards_save_error db email name age status e h
    unfold Routes.create_user
    rw [hc]
  · intro db user_id e h
    have hsvc := get_user_by_id_forwards_not_found db user_id e h
    unfold Routes.get_user
    rw [hsvc]

/-- Witness for C7: the underage create on the empty table surfaces
InvalidAge unchanged at the route, a fetch of id 5 on the empty table
surfaces UserNotFound unchanged, and the handler maps InvalidAge
to 400. -/
theorem C7_error_propagation_and_http_mapping_witness :
    (Routes.create_user DB.empty "kid@example.com" "Kid" 17 .active).1 =
      .error (mkInvalidAge "La edad debe ser mayor o igual a 18 años") ∧
    Routes.get_user DB.empty 5 =
      .error (mkUserNotFound
        ("Usuario con ID " ++ apos ++ toString (5 : Nat) ++ apos ++ " no encontrado")) ∧
    handle_exception ⟨.invalidAge, "boom"⟩ = ⟨400, "Edad inválida", "boom"⟩ :=
  ⟨C7_error_propagation_and_http_mapping.1 DB.empty "kid@example.com" "Kid" 17 .active
    _ (by rfl),
   C7_error_propagation_and_http_mapping.2.1 DB.empty 5 _ (by rfl),
   C7_error_propagation_and_http_mapping.2.2.1 "boom"⟩

/-- C8: updating the status of a stored user returns the user with the
new status and all other fields intact, but writes nothing: the table
comes back unchanged, so a subsequent fetch by the same id still holds
the original persisted status and fields. -/
theorem C8_update_status_in_memory_only (db : DB) (user_id : Nat) (s : UserStatus)
    (u : User) (h : find_by_id db user_id = .ok u) :
    UserService.update_user_status db user_id s = (.ok { u with status := s }, db) ∧
    find_by_id (UserService.update_user_status db user_id s).2 user_id = .ok u := by
  have hg : UserService.get_user_by_id db user_id = .ok u := by
    unfold UserService.get_user_by_id
    rw [h]
  have hupd : UserService.update_user_status db user_id s =
      (.ok { u with status := s }, db) := by
    unfold UserService.update_user_status
    rw [hg]
  refine ⟨hupd, ?_⟩
  rw [hupd]
  exact h

/-- Witness for C8: set Ana inactive; the returned user is inactive but
the table still stores her as active. -/
theorem C8_update_status_in_memory_only_witness :
    UserService.update_user_status dbOne 1 .inactive =
      (.ok ⟨some 1, "ana@example.com", "Ana", .inactive, 20⟩, dbOne) ∧
    find_by_id (UserService.update_user_status dbOne 1 .inactive).2 1 =
      .ok ⟨some 1, "ana@example.com", "Ana", .active, 20⟩ :=
  have h := C8_update_status_in_memory_only dbOne 1 .inactive
    ⟨some 1, "ana@example.com", "Ana", .active, 20⟩ (by rfl)
  ⟨h.1, h.2⟩

/-- C9: the check-email endpoint never fails for a missing user and
returns exists = false, available = true on an absent email;
after a successful create of that email it returns exists = true,
available = false; and in every response available is the negation of
exists. -/
theorem C9_check_email_endpoint (db : DB) (email name2 : String) (age2 : Int)
    (st2 : UserStatus) :
    (email_exists db email = false →
      Routes.check_email_exists db email = ⟨email, false, true⟩) ∧
    (∀ u1 db1, UserService.create_user db email name2 age2 st2 = (.ok u1, db1) →
      Routes.check_email_exists db1 email = ⟨email, true, false⟩) ∧
    (Routes.check_email_exists db email).available =
      !(Routes.check_email_exists db email).«exists» := by
  refine ⟨?_, ?_, rfl⟩
  · intro h
    unfold Routes.check_email_exists UserService.email_exists
    rw [h]
    rfl
  · intro u1 db1 h
    have hsave := create_ok_elim db email name2 age2 st2 u1 db1 h
    obtain ⟨_, hdb, _⟩ := save_ok_elim db _ u1 db1 hsave
    subst hdb
    unfold Routes.check_email_exists UserService.email_exists
    rw [email_exists_after_insert db.rows _ _ rfl]
    rfl

/-- Witness for C9: the empty table has no `a@b.com`; after creating it
the check flips. -/
theorem C9_check_email_endpoint_witness :
    Routes.check_email_exists DB.empty "a@b.com" = ⟨"a@b.com", false, true⟩ ∧
    Routes.check_email_exists ⟨[⟨1, "a@b.com", "Ann", "active", 25⟩], 2⟩ "a@b.com" =
      ⟨"a@b.com", true, false⟩ :=
  have h := C9_check_email_endpoint DB.empty "a@b.com" "Ann" 25 .active
  ⟨h.1 (by decide),
   h.2.1 ⟨some 1, "a@b.com", "Ann", .active, 25⟩
     ⟨[⟨1, "a@b.com", "Ann", "active", 25⟩], 2⟩ (by rfl)⟩

/-- The subclass message plus the base-class constructor yield the
doubled fixed text in front of the original message. -/
lemma appBaseMessage_double (m : String) :
    appBaseMessage (some (baseMessage ++ m)) = "Alphas Error: Alphas Error: " ++ m := by
  have hne : baseMessage ++ m ≠ "" := by
    intro h
    have h2 := congrArg String.data h
    simp [String.data_append, baseMessage] at h2
  simp only [appBaseMessage]
  rw [if_neg hne, ← String.append_assoc]
  rfl

/-- C10: every constructed domain error message starts with
`Alphas Error: ` twice — the subclass constructor prepends it and the
base constructor prepends it again — and that doubled text is exactly
what the detail field of the corresponding 404/409/400 response
carries. -/
theorem C10_doubled_alphas_error_messages (m : String) :
    (mkUserNotFound m).message = "Alphas Error: Alphas Error: " ++ m ∧
    (mkDuplicateEmail m).message = "Alphas Error: Alphas Error: " ++ m ∧
    (mkInvalidAge m).message = "Alphas Error: Alphas Error: " ++ m ∧
    (mkInvalidUserName m).message = "Alphas Error: Alphas Error: " ++ m ∧
    handle_exception (mkUserNotFound m) =
      ⟨404, "Usuario no encontrado", "Alphas Error: Alphas Error: " ++ m⟩ ∧
    handle_exception (mkDuplicateEmail m) =
      ⟨409, "Email duplicado", "Alphas Error: Alphas Error: " ++ m⟩ ∧
    handle_exception (mkInvalidAge m) =
      ⟨400, "Edad inválida", "Alphas Error: Alphas Error: " ++ m⟩ ∧
    handle_exception (mkInvalidUserName m) =
      ⟨400, "Nombre de usuario inválido", "Alphas Error: Alphas Error: " ++ m⟩ := by
  have hd := appBaseMessage_double m
  unfold mkUserNotFound mkDuplicateEmail mkInvalidAge mkInvalidUserName
  rw [hd]
  exact ⟨rfl, rfl, rfl, rfl, rfl, rfl, rfl, rfl⟩
